/-
Verification of the sparkler microVM supervisor against its specification.

The Rust sources are shallowly embedded: pure computations (path
construction, command-line construction, JSON encoding, HTTP status
classification) become Lean functions; effectful control flow
(namespace creation, VM cleanup, the orchestrator in `main`) becomes a
function of the outcomes the environment returns for each syscall, so
theorems quantify over every possible pattern of success and failure.
-/
import Mathlib

namespace Sparkler

/-! ## Basic error model (src/error.rs, nix, std::io) -/

/-- Kind of a `std::io::Error`, as far as the sources inspect it
(`ErrorKind::AlreadyExists` is matched in `prepare_runtime_directory`,
and `create_new(true)` produces it deterministically). -/
inductive IoErrorKind where
  | alreadyExists
  | notFound
  | other
deriving DecidableEq, Repr

/-- A `std::io::Error`: a kind plus an opaque message. -/
structure IoError where
  kind : IoErrorKind
  msg : String
deriving DecidableEq, Repr

/-- A Unix errno, as far as the sources inspect it
(`Errno::EINVAL` is matched in `prepare_runtime_directory`). -/
inductive Errno where
  | EINVAL
  | code (n : Nat)
deriving DecidableEq, Repr

/-- A `nix::Error`; the sources only ever match the `Sys(errno)` variant. -/
inductive NixError where
  | sys (errno : Errno)
  | other (msg : String)
deriving DecidableEq, Repr

/-- `firecracker::api::Error` (src/firecracker/api.rs). Transport and
JSON-decode payloads are abstracted to their messages. -/
inductive ApiError where
  | Transport (msg : String)
  | InvalidJson (msg : String)
  | UnexpectedResponse (msg : String)
  | Client (fault_message : String)
  | Server (fault_message : String)
deriving DecidableEq, Repr

/-- The top-level `Error` enum (src/error.rs). -/
inductive Error where
  | Api (error : ApiError)
  | Io (context : String) (error : IoError)
  | System (context : String) (error : NixError)
  | Jailer (error : String)
deriving DecidableEq, Repr

/-! ## JSON values (serde_json model) -/

/-- A parsed JSON value (numbers restricted to integers, which covers
every field the API model serializes). -/
inductive Json where
  | null
  | bool (b : Bool)
  | num (n : Int)
  | str (s : String)
  | arr (elems : List Json)
  | obj (fields : List (String × Json))

/-- First binding of a key in a JSON object field list. -/
def jsonLookup (fields : List (String × Json)) (key : String) : Option Json :=
  match fields with
  | [] => none
  | (k, v) :: rest => if k = key then some v else jsonLookup rest key

/-- Whether a JSON value is an object containing the given field. -/
def jsonHasField (j : Json) (key : String) : Bool :=
  match j with
  | .obj fields => (jsonLookup fields key).isSome
  | _ => false

/-! ## API model types (src/firecracker/api.rs, `mod model`) -/

/-- `model::Error`: the error body shape `{ "fault_message": string }`. -/
structure ModelError where
  fault_message : String
deriving DecidableEq, Repr

/-- `model::InstanceState`, with the serde rename of `NotStarted`. -/
inductive InstanceState where
  | NotStarted
  | Running
  | Paused
deriving DecidableEq, Repr

/-- `model::InstanceInfo`. -/
structure InstanceInfo where
  app_name : String
  id : String
  state : InstanceState
  vmm_version : String
deriving DecidableEq, Repr

/-- `model::ActionType`. -/
inductive ActionType where
  | FlushMetrics
  | InstanceStart
  | SendCtrlAltDel
deriving DecidableEq, Repr

/-- `model::TokenBucket`. -/
structure TokenBucket where
  one_time_burst : Option Nat
  refill_time : Nat
  size : Nat
deriving DecidableEq, Repr

/-- `model::RateLimiter`. -/
structure RateLimiter where
  bandwidth : Option TokenBucket
  ops : Option TokenBucket
deriving DecidableEq, Repr

/-- `model::BootSource` (paths modelled as strings, which is how serde
serializes a `PathBuf`). -/
structure BootSource where
  boot_args : Option String
  initrd_path : Option String
  kernel_image_path : String
deriving DecidableEq, Repr

/-- `model::Drive`. -/
structure Drive where
  drive_id : String
  is_read_only : Bool
  is_root_device : Bool
  partuuid : Option String
  path_on_host : String
  rate_limiter : Option RateLimiter
deriving DecidableEq, Repr

/-! ## serde serialization of the write-only model types

Each struct serializes to a JSON object listing its fields in
declaration order; fields annotated `skip_serializing_if =
"Option::is_none"` are omitted when `None`. -/

/-- serde encoding of an optional field under `skip_serializing_if =
"Option::is_none"`: absent when `none`, present otherwise. -/
def optField (key : String) (value : Option Json) : List (String × Json) :=
  match value with
  | none => []
  | some v => [(key, v)]

/-- serde `Serialize` for `TokenBucket`. -/
def serializeTokenBucket (t : TokenBucket) : Json :=
  .obj (optField "one_time_burst" (t.one_time_burst.map fun n => .num n)
    ++ [("refill_time", .num t.refill_time), ("size", .num t.size)])

/-- serde `Serialize` for `RateLimiter`. -/
def serializeRateLimiter (r : RateLimiter) : Json :=
  .obj (optField "bandwidth" (r.bandwidth.map serializeTokenBucket)
    ++ optField "ops" (r.ops.map serializeTokenBucket))

/-- serde `Serialize` for `BootSource`. -/
def serializeBootSource (b : BootSource) : Json :=
  .obj (optField "boot_args" (b.boot_args.map fun s => .str s)
    ++ optField "initrd_path" (b.initrd_path.map fun s => .str s)
    ++ [("kernel_image_path", .str b.kernel_image_path)])

/-- serde `Serialize` for `Drive`. -/
def serializeDrive (d : Drive) : Json :=
  .obj ([("drive_id", .str d.drive_id),
      ("is_read_only", .bool d.is_read_only),
      ("is_root_device", .bool d.is_root_device)]
    ++ optField "partuuid" (d.partuuid.map fun s => .str s)
    ++ [("path_on_host", .str d.path_on_host)]
    ++ optField "rate_limiter" (d.rate_limiter.map serializeRateLimiter))

/-! ## serde deserialization of the read-only model types -/

/-- serde `Deserialize` for `model::Error`: an object with a required
string field `fault_message` (unknown fields are ignored). -/
def deserializeModelError (j : Json) : Except String ModelError :=
  match j with
  | .obj fields =>
    match jsonLookup fields "fault_message" with
    | some (.str s) => .ok ⟨s⟩
    | some _ => .error "invalid type for field fault_message"
    | none => .error "missing field fault_message"
  | _ => .error "expected an object"

/-- serde `Deserialize` for `InstanceState`, honoring the
`#[serde(rename = "Not started")]` on `NotStarted`. -/
def deserializeInstanceState (j : Json) : Except String InstanceState :=
  match j with
  | .str "Not started" => .ok .NotStarted
  | .str "Running" => .ok .Running
  | .str "Paused" => .ok .Paused
  | _ => .error "unknown variant for InstanceState"

/-- Required string field of a JSON object field list. -/
def requiredStr (fields : List (String × Json)) (key : String) : Except String String :=
  match jsonLookup fields key with
  | some (.str s) => .ok s
  | some _ => .error ("invalid type for field " ++ key)
  | none => .error ("missing field " ++ key)

/-- serde `Deserialize` for `InstanceInfo`. -/
def deserializeInstanceInfo (j : Json) : Except String InstanceInfo :=
  match j with
  | .obj fields => do
    let app_name ← requiredStr fields "app_name"
    let id ← requiredStr fields "id"
    let state ← match jsonLookup fields "state" with
      | some v => deserializeInstanceState v
      | none => .error "missing field state"
    let vmm_version ← requiredStr fields "vmm_version"
    .ok ⟨app_name, id, state, vmm_version⟩
  | _ => .error "expected an object"

/-! ## HTTP client behavior (src/firecracker/api.rs, `impl Client`)

A response is a status code plus a (parsed) JSON body; requests record
method, path, headers and body exactly as `builder_for` and the
operation methods assemble them. -/

/-- An HTTP response as the client inspects it. -/
structure HttpResponse where
  status : Nat
  body : Json

/-- An HTTP request as the client assembles it. -/
structure HttpRequest where
  method : String
  path : String
  headers : List (String × String)
  body : Option Json

/-- `http::StatusCode::is_client_error`: 400–499. -/
def statusIsClientError (s : Nat) : Bool := 400 ≤ s && s ≤ 499

/-- `http::StatusCode::is_server_error`: 500–599. -/
def statusIsServerError (s : Nat) : Bool := 500 ≤ s && s ≤ 599

/-- Display of a status code (the status number; the Rust `Display`
also appends the canonical reason phrase, abstracted away here). -/
def statusDisplay (s : Nat) : String := toString s

/-- `deserialize_error`: decode the body as `model::Error`; a decode
failure is returned as-is (InvalidJson), otherwise classify by status
class. Mirrors src/firecracker/api.rs lines 134–147. -/
def deserialize_error (resp : HttpResponse) : ApiError :=
  match deserializeModelError resp.body with
  | .error e => .InvalidJson e
  | .ok error =>
    if statusIsClientError resp.status then
      .Client error.fault_message
    else if statusIsServerError resp.status then
      .Server error.fault_message
    else
      .UnexpectedResponse ("Got " ++ statusDisplay resp.status ++ " from server, expected an error")

/-- `builder_for`: common request pieces. -/
def builder_for (path : String) : HttpRequest :=
  { method := ""
    path := path
    headers := [("Accept", "application/json"), ("Content-Type", "application/json")]
    body := none }

/-- The request `set_drive` issues (method, path, headers, body). -/
def set_drive_request (d : Drive) : HttpRequest :=
  { builder_for ("/drives/" ++ d.drive_id) with
      method := "PUT"
      body := some (serializeDrive d) }

/-- How `set_drive` interprets the response: 204 is success with no
decoded body, anything else goes through `deserialize_error`. -/
def set_drive_response (resp : HttpResponse) : Except ApiError Unit :=
  if resp.status = 204 then .ok () else .error (deserialize_error resp)

/-- The request `set_boot_source` issues. -/
def set_boot_source_request (b : BootSource) : HttpRequest :=
  { builder_for "/boot-source" with
      method := "PUT"
      body := some (serializeBootSource b) }

/-- How `set_boot_source` interprets the response. -/
def set_boot_source_response (resp : HttpResponse) : Except ApiError Unit :=
  if resp.status = 204 then .ok () else .error (deserialize_error resp)

/-- How `instance_info` interprets the response: 200 decodes the body
as `InstanceInfo` (decode failure becomes InvalidJson), anything else
goes through `deserialize_error`. -/
def instance_info_response (resp : HttpResponse) : Except ApiError InstanceInfo :=
  if resp.status = 200 then
    match deserializeInstanceInfo resp.body with
    | .ok info => .ok info
    | .error e => .error (.InvalidJson e)
  else
    .error (deserialize_error resp)

/-! ## Jailer configuration and command construction
(src/firecracker/jailer.rs)

Filesystem paths are modelled as their lists of components, matching
how Rust `Path` compares and iterates paths; `PathBuf::push` of a
single component appends it. -/

/-- A filesystem path as its list of components. -/
abbrev FsPath := List String

/-- Display a path for use in a command line or message. -/
def pathDisplay (p : FsPath) : String := String.intercalate "/" p

/-- `jailer::Config` (src/firecracker/jailer.rs lines 18–52):
uid/gid are numeric ids, cgroup is a key→value association with unique
keys (a `HashMap`; the list order stands for one iteration order). -/
structure Config where
  jailer_binary : FsPath
  firecracker_binary : FsPath
  id : String
  user : Nat
  group : Nat
  chroot_base : FsPath
  network_namespace : Option FsPath
  cgroup : List (String × String)
  firecracker_args : List String
deriving DecidableEq, Repr

/-- `Path::file_name`: the last path component, if any. -/
def fileName (p : FsPath) : Option String := p.getLast?

/-- `Config::chroot_path` (src/firecracker/jailer.rs lines 74–82):
`chroot_base` + basename of the firecracker binary + `id` + `"root"`.
The Rust code panics (`expect`) when the binary has no file name;
that case is `none` here. -/
def chroot_path (c : Config) : Option FsPath :=
  match fileName c.firecracker_binary with
  | none => none
  | some base => some (((c.chroot_base ++ [base]) ++ [c.id]) ++ ["root"])

/-- The namespaces `unshare::Command` is asked to create. -/
inductive UnshareNamespace where
  | Pid
deriving DecidableEq, Repr

/-- An `unshare::Command` as `build_command` assembles it: program,
argument list, namespaces to unshare. -/
structure Command where
  program : FsPath
  args : List String
  namespaces : List UnshareNamespace
deriving DecidableEq, Repr

/-- `Command::new`. -/
def Command.new (program : FsPath) : Command :=
  { program := program, args := [], namespaces := [] }

/-- `Command::arg`. -/
def Command.arg (c : Command) (a : String) : Command :=
  { c with args := c.args ++ [a] }

/-- `Command::args`. -/
def Command.argList (c : Command) (as : List String) : Command :=
  { c with args := c.args ++ as }

/-- `Command::unshare`. -/
def Command.unshareNs (c : Command) (ns : List UnshareNamespace) : Command :=
  { c with namespaces := ns }

/-- `build_command` (src/firecracker/jailer.rs lines 85–112), call for
call: the fixed flags, one `--cgroup key=value` per cgroup entry,
`--netns` when a namespace is configured, `--` plus the extra
firecracker arguments when nonempty, and a new PID namespace. -/
def build_command (config : Config) : Command :=
  let command := Command.new config.jailer_binary
  let command := (command.arg "--id").arg config.id
  let command := (command.arg "--exec-file").arg (pathDisplay config.firecracker_binary)
  let command := (command.arg "--uid").arg (toString config.user)
  let command := (command.arg "--gid").arg (toString config.group)
  let command := (command.arg "--chroot-base-dir").arg (pathDisplay config.chroot_base)
  let command := config.cgroup.foldl
    (fun command fv => (command.arg "--cgroup").arg (fv.1 ++ "=" ++ fv.2)) command
  let command := match config.network_namespace with
    | some netns => (command.arg "--netns").arg (pathDisplay netns)
    | none => command
  let command := if config.firecracker_args.isEmpty then command
    else (command.arg "--").argList config.firecracker_args
  command.unshareNs [UnshareNamespace.Pid]

/-! ## Socket wait and run (src/main.rs lines 123–170)

The environment is abstracted as: which poll attempts see the socket
(a predicate on the attempt index), and the outcome of the
`instance_info` call once the socket exists. -/

/-- One pass of the poll loop starting at attempt index `i` with
`fuel` iterations left. Returns (found, number of polls made, list of
sleep durations in seconds). Mirrors `for _ in 0u8..10 { if
socket_path.exists() { break } sleep(1s) }`. -/
def pollLoop (socketExists : Nat → Bool) (i fuel : Nat) : Bool × Nat × List Nat :=
  match fuel with
  | 0 => (false, 0, [])
  | fuel + 1 =>
    if socketExists i then
      (true, 1, [])
    else
      let (found, polls, sleeps) := pollLoop socketExists (i + 1) fuel
      (found, polls + 1, 1 :: sleeps)

/-- The socket wait in `run`: up to 10 polls with 1-second sleeps. -/
def socketWait (socketExists : Nat → Bool) : Bool × Nat × List Nat :=
  pollLoop socketExists 0 10

/-- `run` (src/main.rs lines 123–170): wait for the socket; when it
never appears, fail with a server-fault timeout error; otherwise issue
`instance_info` and propagate its outcome (api errors convert into
`Error::Api`). -/
def run (socketExists : Nat → Bool) (infoResult : Except ApiError InstanceInfo) :
    Except Error Unit :=
  let (found, _, _) := socketWait socketExists
  if !found then
    .error (.Api (.Server "timed out waiting for socket to exist"))
  else
    match infoResult with
    | .error e => .error (.Api e)
    | .ok _ => .ok ()

/-! ## VM cleanup (src/main.rs lines 89–121)

Each syscall's outcome is drawn from a `CleanupOutcomes` environment
(`none` = success); `cleanup_vm` records which steps it attempted and
the result it returns. -/

/-- `VmState`: the jailer child (its pid) and the chroot path. -/
structure VmState where
  pid : Nat
  chroot_path : FsPath
deriving DecidableEq, Repr

/-- The cleanup steps named by the specification (kill and wait
together form its "kill/wait the jail process" step). -/
inductive CleanupStep where
  | kill
  | wait
  | deleteNamespace
  | umountImage
  | removeStateDir
deriving DecidableEq, Repr

/-- Environment outcomes for each operation `cleanup_vm` performs
(`none` = the operation succeeds). `deleteNamespace` is the result of
`network::namespace::delete`, which already returns a top-level
`Error`. -/
structure CleanupOutcomes where
  kill : Option IoError
  wait : Option IoError
  deleteNamespace : Option Error
  umountImage : Option NixError
  removeStateDir : Option IoError
deriving DecidableEq, Repr

/-- `cleanup_vm` (src/main.rs lines 89–121): kill the jailer, wait for
it, delete the network namespace, unmount the image directory, remove
the VM state directory — each step behind `?`, so the first failure
returns immediately. The first component lists the steps attempted. -/
def cleanup_vm (state : VmState) (o : CleanupOutcomes) :
    List CleanupStep × Except Error Unit :=
  match o.kill with
  | some e => ([.kill],
      .error (.Io ("could not kill jailer process " ++ toString state.pid) e))
  | none =>
  match o.wait with
  | some e => ([.kill, .wait],
      .error (.Io ("waiting for jailer process " ++ toString state.pid ++ " failed") e))
  | none =>
  match o.deleteNamespace with
  | some e => ([.kill, .wait, .deleteNamespace], .error e)
  | none =>
  match o.umountImage with
  | some e => ([.kill, .wait, .deleteNamespace, .umountImage],
      .error (.System ("could not unmount image directory "
        ++ pathDisplay (state.chroot_path ++ ["image"])) e))
  | none =>
  match o.removeStateDir with
  | some e => ([.kill, .wait, .deleteNamespace, .umountImage, .removeStateDir],
      .error (.Io ("could not remove VM  state in "
        ++ pathDisplay state.chroot_path.dropLast) e))
  | none => ([.kill, .wait, .deleteNamespace, .umountImage, .removeStateDir], .ok ())

/-! ## Orchestration in `main` (src/main.rs lines 20–42) -/

/-- What `main` did: whether `cleanup_vm` was invoked, and the process
outcome (`error e` = `die(e)` with that error; cleanup failures after
a `run` failure are only logged, so the reported error stays the run
error). -/
structure MainResult where
  cleanupAttempted : Bool
  exit : Except Error Unit
deriving Repr

/-- `main` (src/main.rs lines 20–42): a `setup_vm` failure calls `die`
directly; a `run` failure triggers cleanup (result logged) and then
`die` with the run error; on success, cleanup runs and its failure is
the reported error. -/
def mainFlow (setupResult : Except Error VmState)
    (runResult : Except Error Unit) (cleanupResult : Except Error Unit) : MainResult :=
  match setupResult with
  | .error e => { cleanupAttempted := false, exit := .error e }
  | .ok _ =>
    match runResult with
    | .error e => { cleanupAttempted := true, exit := .error e }
    | .ok _ =>
      match cleanupResult with
      | .error e => { cleanupAttempted := true, exit := .error e }
      | .ok _ => { cleanupAttempted := true, exit := .ok () }

/-! ## Network namespace creation (src/network/namespace.rs)

The world tracks the facts the claims are about: whether the runtime
directory exists, which namespace files exist, and how many kernel
network namespaces have been created by `unshare(CLONE_NEWNET)`.
Every fallible syscall draws its outcome from a `CreateOutcomes`
environment, except those whose outcome the state determines
(directory / file already existing). -/

/-- src/network/namespace.rs line 26. -/
def NETNS_RUNTIME_DIRECTORY : String := "/var/run/netns"

/-- `persistent_namespace_path` (src/network/namespace.rs lines
173–177). -/
def persistent_namespace_path (name : String) : String :=
  NETNS_RUNTIME_DIRECTORY ++ "/" ++ name

/-- World state for the namespace manager. -/
structure NsWorld where
  dirExists : Bool
  files : List String
  kernelNamespaces : Nat
deriving DecidableEq, Repr

/-- Environment outcomes for the fallible operations of `create`
(`none` = success). `mkdir` applies only when the runtime directory
does not exist yet; creating the namespace file when it already exists
fails deterministically with `alreadyExists` instead of consulting
`createFile`. -/
structure CreateOutcomes where
  mkdir : Option IoError
  openDir : Option IoError
  lock : Option NixError
  setPropagation : Option NixError
  bindSelf : Option NixError
  setPropagationRetry : Option NixError
  createFile : Option IoError
  saveNamespace : Option IoError
  unshareNet : Option NixError
  bindMount : Option NixError
  removeFile : Option IoError
deriving DecidableEq, Repr

/-- Observable events of one `create` call. -/
inductive NsEvent where
  | createdFile
  | unsharedNamespace
  | attemptedRemoveFile
deriving DecidableEq, Repr

/-- The `std::io::Error` that `create_new(true)` produces for an
existing file. -/
def alreadyExistsError : IoError := ⟨.alreadyExists, "File exists"⟩

/-- `prepare_runtime_directory` (src/network/namespace.rs lines
99–170): create the directory tolerating "already exists", lock it,
make it a shared mount point — on EINVAL first bind-mount it over
itself and retry. -/
def prepare_runtime_directory (w : NsWorld) (o : CreateOutcomes) :
    NsWorld × Except Error Unit :=
  let step1 : NsWorld × Except Error Unit :=
    if w.dirExists then (w, .ok ())
    else match o.mkdir with
      | none => ({ w with dirExists := true }, .ok ())
      | some e => (w, .error (.Io ("could not create " ++ NETNS_RUNTIME_DIRECTORY) e))
  match step1 with
  | (w1, .error e) => (w1, .error e)
  | (w1, .ok ()) =>
    match o.openDir with
    | some e => (w1, .error (.Io ("could not open " ++ NETNS_RUNTIME_DIRECTORY) e))
    | none =>
    match o.lock with
    | some e => (w1, .error (.System ("could not lock " ++ NETNS_RUNTIME_DIRECTORY) e))
    | none =>
    match o.setPropagation with
    | none => (w1, .ok ())
    | some (.sys .EINVAL) =>
      match o.bindSelf with
      | some e => (w1, .error (.System ("could not bind \""
          ++ NETNS_RUNTIME_DIRECTORY ++ "\" to \"" ++ NETNS_RUNTIME_DIRECTORY ++ "\"") e))
      | none =>
      match o.setPropagationRetry with
      | some e => (w1, .error (.System ("could not set mount propagation on "
          ++ NETNS_RUNTIME_DIRECTORY) e))
      | none => (w1, .ok ())
    | some e => (w1, .error (.System ("could not set mount propagation on "
        ++ NETNS_RUNTIME_DIRECTORY) e))

/-- `create` (src/network/namespace.rs lines 36–79): prepare the
runtime directory; create the namespace file with `create_new(true)`
(fails on an existing file); save the current namespace; `unshare`
a new network namespace; bind-mount `/proc/self/ns/net` onto the
file — on bind-mount failure, best-effort delete the file (a deletion
failure is only logged) and return the bind-mount error. -/
def create (name : String) (w : NsWorld) (o : CreateOutcomes) :
    NsWorld × List NsEvent × Except Error String :=
  match prepare_runtime_directory w o with
  | (w1, .error e) => (w1, [], .error e)
  | (w1, .ok ()) =>
  let namespace_path := persistent_namespace_path name
  if namespace_path ∈ w1.files then
    (w1, [], .error (.Io ("could not create network namespace file " ++ namespace_path)
      alreadyExistsError))
  else
  match o.createFile with
  | some e => (w1, [],
      .error (.Io ("could not create network namespace file " ++ namespace_path) e))
  | none =>
  let w2 := { w1 with files := namespace_path :: w1.files }
  match o.saveNamespace with
  | some e => (w2, [.createdFile],
      .error (.Io "could not open current network namespace" e))
  | none =>
  match o.unshareNet with
  | some e => (w2, [.createdFile],
      .error (.System "could not create a new network namespace" e))
  | none =>
  let w3 := { w2 with kernelNamespaces := w2.kernelNamespaces + 1 }
  match o.bindMount with
  | none => (w3, [.createdFile, .unsharedNamespace], .ok namespace_path)
  | some e =>
    let bindError : Error :=
      .System ("could not bind \"/proc/self/ns/net\" to \""
        ++ namespace_path ++ "\"") e
    match o.removeFile with
    | none => ({ w3 with files := w3.files.erase namespace_path },
        [.createdFile, .unsharedNamespace, .attemptedRemoveFile], .error bindError)
    | some _ => (w3, [.createdFile, .unsharedNamespace, .attemptedRemoveFile],
        .error bindError)

/-- serde decoding of an `Option<String>` field: absent or `null`
maps to `none`, a string to `some`. -/
def deserializeOptStr (v : Option Json) : Except String (Option String) :=
  match v with
  | none => .ok none
  | some (.str s) => .ok (some s)
  | some .null => .ok none
  | some _ => .error "invalid type, expected a string"

/-- Modelled from the spec: deserialization of a `BootSource` (the
source derives only `Serialize` for `BootSource`, so its decoder is
absent from the code). Follows the spec's round-trip wording under
standard serde JSON semantics: an object, optional fields absent ↦
`None`, `kernel_image_path` a required string. -/
def deserializeBootSource (j : Json) : Except String BootSource :=
  match j with
  | .obj fields => do
    let boot_args ← deserializeOptStr (jsonLookup fields "boot_args")
    let initrd_path ← deserializeOptStr (jsonLookup fields "initrd_path")
    let kernel_image_path ← requiredStr fields "kernel_image_path"
    .ok ⟨boot_args, initrd_path, kernel_image_path⟩
  | _ => .error "expected an object"

end Sparkler

namespace Sparkler

/-! ## Theorems -/

/-- C4: serializing a `BootSource` with `initrd_path = None` omits the
`initrd_path` field from the JSON object entirely, and decoding that
serialized form reproduces the original value, in particular
`initrd_path = None`. -/
theorem boot_source_roundtrip (b : BootSource) (h : b.initrd_path = none) :
    jsonHasField (serializeBootSource b) "initrd_path" = false ∧
    deserializeBootSource (serializeBootSource b) = .ok b := by
  obtain ⟨args, initrd, kernel⟩ := b
  subst h
  cases args <;>
    simp [serializeBootSource, deserializeBootSource, jsonHasField, jsonLookup,
      optField, deserializeOptStr, requiredStr, Bind.bind, Except.bind]

/-- C4 witness: a concrete `BootSource` with no initrd round-trips. -/
theorem boot_source_roundtrip_witness :
    (BootSource.mk (some "console=ttyS0") none "image/hello-vmlinux.bin").initrd_path
        = none ∧
    jsonHasField
      (serializeBootSource (BootSource.mk (some "console=ttyS0") none
        "image/hello-vmlinux.bin")) "initrd_path" = false ∧
    deserializeBootSource
      (serializeBootSource (BootSource.mk (some "console=ttyS0") none
        "image/hello-vmlinux.bin"))
      = .ok (BootSource.mk (some "console=ttyS0") none "image/hello-vmlinux.bin") := by
  refine ⟨rfl, ?_⟩
  have h := boot_source_roundtrip
    (BootSource.mk (some "console=ttyS0") none "image/hello-vmlinux.bin") rfl
  exact h

/-- C3: for a non-success status, a decodable error body yields a
client-fault error on 4xx and a server-fault error on 5xx, each
carrying the decoded `fault_message`; any other status yields an
unexpected-response error carrying the observed status; a decode
failure of the error body (or of a success body, as in
`instance_info`) short-circuits into an InvalidJson error. `set_drive`
issues a PUT to `/drives/{drive_id}`; a 204 response is success with
no decoded body; a 400 response with body
`{"fault_message":"drive busy"}` is a client fault carrying
"drive busy". -/
theorem api_error_classification (s : Nat) (body info : Json) (m : ModelError)
    (e : String) (d : Drive) :
    (deserializeModelError body = .ok m → 400 ≤ s → s ≤ 499 →
      deserialize_error ⟨s, body⟩ = .Client m.fault_message) ∧
    (deserializeModelError body = .ok m → 500 ≤ s → s ≤ 599 →
      deserialize_error ⟨s, body⟩ = .Server m.fault_message) ∧
    (deserializeModelError body = .ok m → ¬(400 ≤ s ∧ s ≤ 499) → ¬(500 ≤ s ∧ s ≤ 599) →
      deserialize_error ⟨s, body⟩ =
        .UnexpectedResponse ("Got " ++ statusDisplay s ++ " from server, expected an error")) ∧
    (deserializeModelError body = .error e →
      deserialize_error ⟨s, body⟩ = .InvalidJson e) ∧
    (deserializeInstanceInfo info = .error e →
      instance_info_response ⟨200, info⟩ = .error (.InvalidJson e)) ∧
    ((set_drive_request d).method = "PUT" ∧
      (set_drive_request d).path = "/drives/" ++ d.drive_id) ∧
    (set_drive_response ⟨204, body⟩ = .ok ()) ∧
    (set_drive_response ⟨400, .obj [("fault_message", .str "drive busy")]⟩ =
      .error (.Client "drive busy")) := by
  refine ⟨?_, ?_, ?_, ?_, ?_, ⟨rfl, rfl⟩, ?_, ?_⟩
  · intro hm h1 h2
    simp [deserialize_error, hm, statusIsClientError, h1, h2]
  · intro hm h1 h2
    have : ¬(s ≤ 499) := by omega
    simp [deserialize_error, hm, statusIsClientError, statusIsServerError, h1, h2, this]
  · intro hm h1 h2
    simp only [deserialize_error, hm, statusIsClientError, statusIsServerError]
    rw [if_neg, if_neg] <;> simp <;> omega
  · intro he
    simp [deserialize_error, he]
  · intro he
    simp [instance_info_response, he]
  · simp [set_drive_response]
  · simp [set_drive_response, deserialize_error, deserializeModelError, jsonLookup,
      statusIsClientError]

/-- C3 witness: concrete statuses and bodies exercising each branch of
the classification, via `api_error_classification`. -/
theorem api_error_classification_witness :
    deserialize_error ⟨400, .obj [("fault_message", .str "drive busy")]⟩ =
        .Client "drive busy" ∧
    deserialize_error ⟨503, .obj [("fault_message", .str "internal")]⟩ =
        .Server "internal" ∧
    deserialize_error ⟨302, .obj [("fault_message", .str "odd")]⟩ =
        .UnexpectedResponse ("Got " ++ statusDisplay 302 ++ " from server, expected an error") ∧
    deserialize_error ⟨400, .arr []⟩ = .InvalidJson "expected an object" ∧
    instance_info_response ⟨200, .arr []⟩ = .error (.InvalidJson "expected an object") ∧
    (set_drive_request (Drive.mk "rootfs" false true none "image/hello-rootfs.ext4" none)).method
        = "PUT" ∧
    (set_drive_request (Drive.mk "rootfs" false true none "image/hello-rootfs.ext4" none)).path
        = "/drives/rootfs" ∧
    set_drive_response ⟨204, .null⟩ = .ok () ∧
    set_drive_response ⟨400, .obj [("fault_message", .str "drive busy")]⟩ =
        .error (.Client "drive busy") := by
  have busy := api_error_classification 400
    (.obj [("fault_message", .str "drive busy")]) Json.null ⟨"drive busy"⟩ "expected an object"
    (Drive.mk "rootfs" false true none "image/hello-rootfs.ext4" none)
  have srv := api_error_classification 503
    (.obj [("fault_message", .str "internal")]) Json.null ⟨"internal"⟩ ""
    (Drive.mk "rootfs" false true none "image/hello-rootfs.ext4" none)
  have odd := api_error_classification 302
    (.obj [("fault_message", .str "odd")]) Json.null ⟨"odd"⟩ ""
    (Drive.mk "rootfs" false true none "image/hello-rootfs.ext4" none)
  have bad := api_error_classification 400 (.arr []) (.arr []) ⟨""⟩ "expected an object"
    (Drive.mk "rootfs" false true none "image/hello-rootfs.ext4" none)
  have b204 := api_error_classification 204 Json.null Json.null ⟨""⟩ ""
    (Drive.mk "rootfs" false true none "image/hello-rootfs.ext4" none)
  refine ⟨?_, ?_, ?_, ?_, ?_, ?_, ?_, ?_, ?_⟩
  · exact busy.1 (by rfl) (by omega) (by omega)
  · exact srv.2.1 (by rfl) (by omega) (by omega)
  · exact odd.2.2.1 (by rfl) (by omega) (by omega)
  · exact bad.2.2.2.1 (by rfl)
  · exact bad.2.2.2.2.1 (by rfl)
  · exact busy.2.2.2.2.2.1.1
  · exact busy.2.2.2.2.2.1.2
  · exact b204.2.2.2.2.2.2.1
  · exact busy.2.2.2.2.2.2.2

/-- C5: the chroot path is
`<chroot_base>/<basename(firecracker_binary)>/<id>/root`, a pure
function of exactly (chroot_base, binary basename, id): two configs
agreeing on those three (but possibly differing in user, group, cgroup
settings …) have the same path, and changing exactly one of the three
changes the path. -/
theorem chroot_path_pure_function (c c' : Config) (b b' : String)
    (hb : fileName c.firecracker_binary = some b)
    (hb' : fileName c'.firecracker_binary = some b') :
    chroot_path c = some (c.chroot_base ++ [b, c.id, "root"]) ∧
    (c.chroot_base = c'.chroot_base → b = b' → c.id = c'.id →
      chroot_path c = chroot_path c') ∧
    (c.chroot_base ≠ c'.chroot_base → b = b' → c.id = c'.id →
      chroot_path c ≠ chroot_path c') ∧
    (c.chroot_base = c'.chroot_base → b ≠ b' → c.id = c'.id →
      chroot_path c ≠ chroot_path c') ∧
    (c.chroot_base = c'.chroot_base → b = b' → c.id ≠ c'.id →
      chroot_path c ≠ chroot_path c') := by
  have hc : chroot_path c = some (c.chroot_base ++ [b, c.id, "root"]) := by
    simp [chroot_path, hb]
  have hc' : chroot_path c' = some (c'.chroot_base ++ [b', c'.id, "root"]) := by
    simp [chroot_path, hb']
  refine ⟨hc, ?_, ?_, ?_, ?_⟩
  · intro h1 h2 h3
    rw [hc, hc', h1, h2, h3]
  · intro h1 h2 h3 heq
    rw [hc, hc', h2, h3, Option.some.injEq] at heq
    exact h1 (List.append_cancel_right heq)
  · intro h1 h2 h3 heq
    rw [hc, hc', h1, h3, Option.some.injEq] at heq
    have := List.append_cancel_left heq
    simp only [List.cons.injEq] at this
    exact h2 this.1
  · intro h1 h2 h3 heq
    rw [hc, hc', h1, h2, Option.some.injEq] at heq
    have := List.append_cancel_left heq
    simp only [List.cons.injEq] at this
    exact h3 this.2.1

/-- C5 witness: concrete configurations exercising the equalities and
inequalities of `chroot_path_pure_function`. -/
theorem chroot_path_pure_function_witness :
    chroot_path
        (Config.mk ["usr", "bin", "jailer"] ["usr", "bin", "firecracker"] "testvm"
          1000 1000 ["srv", "jailer"] none [] [])
      = some (["srv", "jailer"] ++ ["firecracker", "testvm", "root"]) ∧
    chroot_path
        (Config.mk ["usr", "bin", "jailer"] ["usr", "bin", "firecracker"] "testvm"
          1000 1000 ["srv", "jailer"] none [] [])
      = chroot_path
        (Config.mk ["usr", "bin", "jailer"] ["opt", "firecracker"] "testvm"
          0 0 ["srv", "jailer"] (some ["var", "run", "netns", "test"])
          [("cpuset.cpus", "0")] ["--help"]) ∧
    chroot_path
        (Config.mk ["usr", "bin", "jailer"] ["usr", "bin", "firecracker"] "testvm"
          1000 1000 ["srv", "jailer"] none [] [])
      ≠ chroot_path
        (Config.mk ["usr", "bin", "jailer"] ["usr", "bin", "firecracker"] "othervm"
          1000 1000 ["srv", "jailer"] none [] []) := by
  have h := chroot_path_pure_function
    (Config.mk ["usr", "bin", "jailer"] ["usr", "bin", "firecracker"] "testvm"
      1000 1000 ["srv", "jailer"] none [] [])
    (Config.mk ["usr", "bin", "jailer"] ["opt", "firecracker"] "testvm"
      0 0 ["srv", "jailer"] (some ["var", "run", "netns", "test"])
      [("cpuset.cpus", "0")] ["--help"])
    "firecracker" "firecracker" rfl rfl
  have h2 := chroot_path_pure_function
    (Config.mk ["usr", "bin", "jailer"] ["usr", "bin", "firecracker"] "testvm"
      1000 1000 ["srv", "jailer"] none [] [])
    (Config.mk ["usr", "bin", "jailer"] ["usr", "bin", "firecracker"] "othervm"
      1000 1000 ["srv", "jailer"] none [] [])
    "firecracker" "firecracker" rfl rfl
  exact ⟨h.1, h.2.1 rfl rfl rfl, h2.2.2.2.2 rfl rfl (by decide)⟩

/-- The cgroup fold in `build_command` appends one
`--cgroup key=value` pair per entry. -/
theorem cgroup_foldl (l : List (String × String)) (c : Command) :
    l.foldl (fun command fv => (command.arg "--cgroup").arg (fv.1 ++ "=" ++ fv.2)) c
      = { c with args := c.args ++ l.flatMap fun fv => ["--cgroup", fv.1 ++ "=" ++ fv.2] } := by
  induction l generalizing c with
  | nil => simp
  | cons hd tl ih =>
    rw [List.foldl_cons, ih]
    simp [Command.arg, List.append_assoc]

/-- C8: `build_command` produces exactly the jailer's flag surface:
`--id`, `--exec-file`, `--uid`, `--gid`, `--chroot-base-dir`, one
`--cgroup key=value` per cgroup entry, `--netns <path>` exactly when a
network namespace is configured, and a trailing `--` followed by the
extra firecracker arguments verbatim exactly when that list is
nonempty; the child is configured to enter a new PID namespace. -/
theorem build_command_spec (c : Config) :
    (build_command c).program = c.jailer_binary ∧
    (build_command c).args =
      ["--id", c.id, "--exec-file", pathDisplay c.firecracker_binary,
        "--uid", toString c.user, "--gid", toString c.group,
        "--chroot-base-dir", pathDisplay c.chroot_base]
      ++ (c.cgroup.flatMap fun fv => ["--cgroup", fv.1 ++ "=" ++ fv.2])
      ++ (match c.network_namespace with
          | some netns => ["--netns", pathDisplay netns]
          | none => [])
      ++ (if c.firecracker_args.isEmpty then [] else "--" :: c.firecracker_args) ∧
    (build_command c).namespaces = [UnshareNamespace.Pid] := by
  simp only [build_command, cgroup_foldl]
  cases hns : c.network_namespace <;>
    by_cases hargs : c.firecracker_args.isEmpty <;>
      simp [hns, hargs, Command.new, Command.arg, Command.argList, Command.unshareNs,
        List.append_assoc]

/-- The poll loop makes at most `fuel` polls. -/
theorem pollLoop_polls_le (socketExists : Nat → Bool) (i fuel : Nat) :
    (pollLoop socketExists i fuel).2.1 ≤ fuel := by
  induction fuel generalizing i with
  | zero => simp [pollLoop]
  | succ fuel ih =>
    simp only [pollLoop]
    split
    · simp
    · have h1 := ih (i + 1)
      show (pollLoop socketExists (i + 1) fuel).2.1 + 1 ≤ fuel + 1
      omega

/-- Every sleep the poll loop performs is one second long. -/
theorem pollLoop_sleeps_one (socketExists : Nat → Bool) (i fuel : Nat) :
    ∀ t ∈ (pollLoop socketExists i fuel).2.2, t = 1 := by
  induction fuel generalizing i with
  | zero => simp [pollLoop]
  | succ fuel ih =>
    simp only [pollLoop]
    split
    · simp
    · intro t ht
      have ht' : t ∈ 1 :: (pollLoop socketExists (i + 1) fuel).2.2 := ht
      rcases List.mem_cons.mp ht' with h | h
      · exact h
      · exact ih (i + 1) t h

/-- When the socket never appears, the poll loop uses its whole
budget and reports failure. -/
theorem pollLoop_never (socketExists : Nat → Bool) (i fuel : Nat)
    (h : ∀ k, k < fuel → socketExists (i + k) = false) :
    pollLoop socketExists i fuel = (false, fuel, List.replicate fuel 1) := by
  induction fuel generalizing i with
  | zero => simp [pollLoop]
  | succ fuel ih =>
    have h0 : socketExists i = false := by simpa using h 0 (by omega)
    have hrest : ∀ k, k < fuel → socketExists (i + 1 + k) = false := by
      intro k hk
      have := h (k + 1) (by omega)
      simpa [Nat.add_assoc, Nat.add_comm 1 k] using this
    simp [pollLoop, h0, ih (i + 1) hrest, List.replicate_succ]

/-- C9: the control-socket wait polls at most 10 times, every sleep
between attempts is one second, and if the socket never appears within
the budget `run` makes exactly 10 polls and fails with a server-fault
error whose message indicates a timeout, rather than hanging. -/
theorem socket_wait_bounded (socketExists : Nat → Bool)
    (infoResult : Except ApiError InstanceInfo) :
    (socketWait socketExists).2.1 ≤ 10 ∧
    (∀ t ∈ (socketWait socketExists).2.2, t = 1) ∧
    ((∀ i, i < 10 → socketExists i = false) →
      (socketWait socketExists).2.1 = 10 ∧
      run socketExists infoResult =
        .error (.Api (.Server "timed out waiting for socket to exist"))) := by
  refine ⟨pollLoop_polls_le socketExists 0 10, pollLoop_sleeps_one socketExists 0 10, ?_⟩
  intro h
  have hnever := pollLoop_never socketExists 0 10 (by intro k hk; simpa using h k hk)
  constructor
  · simp [socketWait, hnever]
  · simp [run, socketWait, hnever]

/-- C9 witness: with a socket that never appears, `run` times out with
the server-fault error after exactly 10 polls. -/
theorem socket_wait_bounded_witness :
    (socketWait fun _ => false).2.1 = 10 ∧
    run (fun _ => false) (.error (.Transport "unreachable")) =
      .error (.Api (.Server "timed out waiting for socket to exist")) := by
  have h := socket_wait_bounded (fun _ => false) (.error (.Transport "unreachable"))
  exact h.2.2 (by intro i _; rfl)

/-- A concrete `VmState` for counterexamples: the jailer child and the
chroot path `setup_vm` computes for the default configuration. -/
def exampleVmState : VmState :=
  ⟨1234, ["srv", "jailer", "firecracker", "testvm", "root"]⟩

/-- Cleanup outcomes in which killing the jailer fails (e.g. ESRCH)
and every other step would succeed. -/
def killFailsOutcomes : CleanupOutcomes :=
  ⟨some ⟨.other, "ESRCH"⟩, none, none, none, none⟩

/-- C1 counterexample: when the process-kill step fails, `cleanup_vm`
attempts only that step — the namespace deletion, image unmount and
state-directory removal are all skipped, refuting the claim that all
four cleanup steps execute even when the kill step fails. -/
theorem cleanup_aborts_on_kill_failure_cex :
    (cleanup_vm exampleVmState killFailsOutcomes).1 = [CleanupStep.kill] ∧
    CleanupStep.deleteNamespace ∉ (cleanup_vm exampleVmState killFailsOutcomes).1 ∧
    CleanupStep.umountImage ∉ (cleanup_vm exampleVmState killFailsOutcomes).1 ∧
    CleanupStep.removeStateDir ∉ (cleanup_vm exampleVmState killFailsOutcomes).1 := by
  refine ⟨rfl, ?_, ?_, ?_⟩ <;> · intro h; simp [cleanup_vm, killFailsOutcomes] at h

/-- C1 (amended): `cleanup_vm` attempts its steps in order but aborts
at the first failing step, reporting only that first failure; in
particular a kill failure skips every later step, and all steps
execute exactly when every step succeeds. -/
theorem cleanup_first_failure_aborts (state : VmState) (o : CleanupOutcomes) :
    (∀ e, o.kill = some e →
      (cleanup_vm state o).1 = [CleanupStep.kill] ∧
      (cleanup_vm state o).2 =
        .error (.Io ("could not kill jailer process " ++ toString state.pid) e)) ∧
    ((cleanup_vm state o).2 = .ok () ↔
      o.kill = none ∧ o.wait = none ∧ o.deleteNamespace = none ∧
        o.umountImage = none ∧ o.removeStateDir = none) ∧
    ((cleanup_vm state o).2 = .ok () →
      (cleanup_vm state o).1 = [CleanupStep.kill, .wait, .deleteNamespace,
        .umountImage, .removeStateDir]) := by
  obtain ⟨k, w, d, u, r⟩ := o
  refine ⟨?_, ?_, ?_⟩
  · intro e he
    cases he
    exact ⟨rfl, rfl⟩
  · cases k <;> cases w <;> cases d <;> cases u <;> cases r <;> simp [cleanup_vm]
  · cases k <;> cases w <;> cases d <;> cases u <;> cases r <;> simp [cleanup_vm]

/-- C1 amended witness: the kill-failure outcome aborts after the kill
step, and the all-success outcome runs every step. -/
theorem cleanup_first_failure_aborts_witness :
    ((cleanup_vm exampleVmState killFailsOutcomes).1 = [CleanupStep.kill] ∧
      (cleanup_vm exampleVmState killFailsOutcomes).2 =
        .error (.Io ("could not kill jailer process " ++ toString exampleVmState.pid)
          ⟨.other, "ESRCH"⟩)) ∧
    (cleanup_vm exampleVmState ⟨none, none, none, none, none⟩).1 =
      [CleanupStep.kill, .wait, .deleteNamespace, .umountImage, .removeStateDir] := by
  have h := cleanup_first_failure_aborts exampleVmState killFailsOutcomes
  have hok := cleanup_first_failure_aborts exampleVmState ⟨none, none, none, none, none⟩
  exact ⟨h.1 ⟨.other, "ESRCH"⟩ rfl, hok.2.2 rfl⟩

/-- A concrete provisioning failure: the namespace file already
existed. -/
def exampleSetupError : Error :=
  .Io "could not create network namespace file /var/run/netns/test" alreadyExistsError

/-- C2 counterexample: when `setup_vm` fails, `main` reports the error
without invoking `cleanup_vm` at all — partial side effects (namespace
file, mounted image directory) are not cleaned up, refuting the claim
that teardown is attempted for every provisioning failure. -/
theorem setup_failure_skips_cleanup_cex :
    (mainFlow (.error exampleSetupError) (.ok ()) (.ok ())).cleanupAttempted = false ∧
    (mainFlow (.error exampleSetupError) (.ok ()) (.ok ())).exit =
      .error exampleSetupError := by
  exact ⟨rfl, rfl⟩

/-- C2 (amended): `main` attempts cleanup exactly when `setup_vm`
succeeded: a `run` failure triggers cleanup before the run error is
reported, but a `setup_vm` failure is reported directly and no cleanup
of partial side effects is attempted. -/
theorem cleanup_gated_on_setup_success (setupResult : Except Error VmState)
    (runResult cleanupResult : Except Error Unit) :
    ((mainFlow setupResult runResult cleanupResult).cleanupAttempted = true ↔
      ∃ v, setupResult = .ok v) ∧
    (∀ e, setupResult = .error e →
      (mainFlow setupResult runResult cleanupResult).cleanupAttempted = false ∧
      (mainFlow setupResult runResult cleanupResult).exit = .error e) ∧
    (∀ v e, setupResult = .ok v → runResult = .error e →
      (mainFlow setupResult runResult cleanupResult).cleanupAttempted = true ∧
      (mainFlow setupResult runResult cleanupResult).exit = .error e) := by
  refine ⟨?_, ?_, ?_⟩
  · cases setupResult with
    | error e => simp [mainFlow]
    | ok v =>
      cases runResult <;> cases cleanupResult <;> simp [mainFlow]
  · intro e he
    cases he
    exact ⟨rfl, rfl⟩
  · intro v e hv he
    cases hv
    cases he
    exact ⟨rfl, rfl⟩

/-- C2 amended witness: a failed setup skips cleanup; a failed run
after successful setup attempts cleanup and reports the run error. -/
theorem cleanup_gated_on_setup_success_witness :
    (mainFlow (.error exampleSetupError) (.ok ()) (.ok ())).cleanupAttempted = false ∧
    (mainFlow (.ok exampleVmState)
        (.error (.Api (.Server "timed out waiting for socket to exist"))) (.ok ())).cleanupAttempted
      = true ∧
    (mainFlow (.ok exampleVmState)
        (.error (.Api (.Server "timed out waiting for socket to exist"))) (.ok ())).exit
      = .error (.Api (.Server "timed out waiting for socket to exist")) := by
  have h1 := cleanup_gated_on_setup_success (.error exampleSetupError) (.ok ()) (.ok ())
  have h2 := cleanup_gated_on_setup_success (.ok exampleVmState)
    (.error (.Api (.Server "timed out waiting for socket to exist"))) (.ok ())
  refine ⟨(h1.2.1 exampleSetupError rfl).1, ?_, ?_⟩
  · exact (h2.2.2 exampleVmState (.Api (.Server "timed out waiting for socket to exist"))
      rfl rfl).1
  · exact (h2.2.2 exampleVmState (.Api (.Server "timed out waiting for socket to exist"))
      rfl rfl).2

/-- `prepare_runtime_directory` only ever touches the runtime
directory itself: the file set and the kernel-namespace count are
unchanged on every path. -/
theorem prepare_runtime_directory_preserves (w : NsWorld) (o : CreateOutcomes) :
    (prepare_runtime_directory w o).1.files = w.files ∧
    (prepare_runtime_directory w o).1.kernelNamespaces = w.kernelNamespaces := by
  obtain ⟨mk, od, lk, sp, bs, spr, cf, sn, un, bm, rf⟩ := o
  cases hd : w.dirExists <;> cases mk <;> cases od <;> cases lk <;>
    rcases sp with _ | ((_ | n) | s) <;> cases bs <;> cases spr <;>
      simp [prepare_runtime_directory, hd]

/-- `create` on a world whose file set already holds the namespace
file fails with the already-exists error before unsharing anything:
no events, no world change. -/
theorem create_file_exists (name : String) (w : NsWorld) (o : CreateOutcomes)
    (hmem : persistent_namespace_path name ∈ w.files)
    (hmk : o.mkdir = none) (hod : o.openDir = none) (hlk : o.lock = none)
    (hsp : o.setPropagation = none) :
    (create name w o).2.2 =
      .error (.Io ("could not create network namespace file "
        ++ persistent_namespace_path name) alreadyExistsError) ∧
    (create name w o).2.1 = [] ∧
    (create name w o).1.kernelNamespaces = w.kernelNamespaces ∧
    (create name w o).1.files = w.files := by
  have hprep : prepare_runtime_directory w o =
      (if w.dirExists then w else { w with dirExists := true }, .ok ()) := by
    cases hd : w.dirExists <;>
      simp [prepare_runtime_directory, hd, hmk, hod, hlk, hsp]
  cases hd : w.dirExists <;> simp [create, hprep, hd, hmem]

/-- C6: when the bind-mount of the new namespace onto the persistent
file fails, `create` best-effort deletes the file it created and
propagates the bind-mount error — regardless of whether the deletion
succeeds, the returned error is the bind-mount error, and on
successful deletion the file is gone. -/
theorem create_bind_failure_cleanup (name : String) (w w1 : NsWorld)
    (o : CreateOutcomes) (e : NixError)
    (hprep : prepare_runtime_directory w o = (w1, .ok ()))
    (hmem : persistent_namespace_path name ∉ w1.files)
    (hcf : o.createFile = none) (hsn : o.saveNamespace = none)
    (hun : o.unshareNet = none) (hbm : o.bindMount = some e) :
    (create name w o).2.2 = .error (.System
      ("could not bind \"/proc/self/ns/net\" to \""
        ++ persistent_namespace_path name ++ "\"") e) ∧
    NsEvent.attemptedRemoveFile ∈ (create name w o).2.1 ∧
    (o.removeFile = none →
      persistent_namespace_path name ∉ (create name w o).1.files) := by
  cases hrf : o.removeFile <;>
    simp [create, hprep, hmem, hcf, hsn, hun, hbm, hrf, List.erase_cons_head]

/-- C6 witness: a bind-mount failure with every earlier step
succeeding returns the bind-mount error, attempts the file removal,
and leaves no file behind when the removal succeeds. -/
theorem create_bind_failure_cleanup_witness :
    (create "test" ⟨true, [], 0⟩
        ⟨none, none, none, none, none, none, none, none, none,
          some (.sys (.code 13)), none⟩).2.2
      = .error (.System
        ("could not bind \"/proc/self/ns/net\" to \""
          ++ persistent_namespace_path "test" ++ "\"") (.sys (.code 13))) ∧
    NsEvent.attemptedRemoveFile ∈
      (create "test" ⟨true, [], 0⟩
        ⟨none, none, none, none, none, none, none, none, none,
          some (.sys (.code 13)), none⟩).2.1 ∧
    persistent_namespace_path "test" ∉
      (create "test" ⟨true, [], 0⟩
        ⟨none, none, none, none, none, none, none, none, none,
          some (.sys (.code 13)), none⟩).1.files := by
  have h := create_bind_failure_cleanup "test" ⟨true, [], 0⟩ ⟨true, [], 0⟩
    ⟨none, none, none, none, none, none, none, none, none,
      some (.sys (.code 13)), none⟩
    (.sys (.code 13)) rfl (by simp) rfl rfl rfl rfl
  exact ⟨h.1, h.2.1, h.2.2 rfl⟩

/-- C7: after a successful `create(name)` (the bind-mount succeeded
and the persistent file is in place), a second `create(name)` fails
with the already-exists error from the file-creation step — before any
namespace is unshared, so the failed call creates no kernel namespace
and records no unshare event. -/
theorem create_duplicate_fails (name : String) (w w1 : NsWorld)
    (o1 o2 : CreateOutcomes)
    (hprep : prepare_runtime_directory w o1 = (w1, .ok ()))
    (hmem : persistent_namespace_path name ∉ w1.files)
    (hcf : o1.createFile = none) (hsn : o1.saveNamespace = none)
    (hun : o1.unshareNet = none) (hbm : o1.bindMount = none)
    (hmk2 : o2.mkdir = none) (hod2 : o2.openDir = none) (hlk2 : o2.lock = none)
    (hsp2 : o2.setPropagation = none) :
    (create name w o1).2.2 = .ok (persistent_namespace_path name) ∧
    (create name (create name w o1).1 o2).2.2 =
      .error (.Io ("could not create network namespace file "
        ++ persistent_namespace_path name) alreadyExistsError) ∧
    alreadyExistsError.kind = .alreadyExists ∧
    (create name (create name w o1).1 o2).1.kernelNamespaces =
      (create name w o1).1.kernelNamespaces ∧
    NsEvent.unsharedNamespace ∉ (create name (create name w o1).1 o2).2.1 := by
  have hfirst : create name w o1 =
      (NsWorld.mk w1.dirExists (persistent_namespace_path name :: w1.files)
          (w1.kernelNamespaces + 1),
        [.createdFile, .unsharedNamespace], .ok (persistent_namespace_path name)) := by
    simp [create, hprep, hmem, hcf, hsn, hun, hbm]
  have hmem2 : persistent_namespace_path name ∈ (create name w o1).1.files := by
    rw [hfirst]
    exact List.mem_cons_self _ _
  have hsecond := create_file_exists name (create name w o1).1 o2 hmem2 hmk2 hod2 hlk2 hsp2
  refine ⟨by rw [hfirst], hsecond.1, rfl, hsecond.2.2.1, ?_⟩
  rw [hsecond.2.1]
  simp

/-- C7 witness: duplicate creation on a fresh world fails the second
time with the already-exists error and creates no kernel namespace. -/
theorem create_duplicate_fails_witness :
    (create "test" ⟨false, [], 0⟩
        ⟨none, none, none, none, none, none, none, none, none, none, none⟩).2.2
      = .ok (persistent_namespace_path "test") ∧
    (create "test"
        (create "test" ⟨false, [], 0⟩
          ⟨none, none, none, none, none, none, none, none, none, none, none⟩).1
        ⟨none, none, none, none, none, none, none, none, none, none, none⟩).2.2
      = .error (.Io ("could not create network namespace file "
          ++ persistent_namespace_path "test") alreadyExistsError) ∧
    (create "test"
        (create "test" ⟨false, [], 0⟩
          ⟨none, none, none, none, none, none, none, none, none, none, none⟩).1
        ⟨none, none, none, none, none, none, none, none, none, none, none⟩).1.kernelNamespaces
      = (create "test" ⟨false, [], 0⟩
          ⟨none, none, none, none, none, none, none, none, none, none, none⟩).1.kernelNamespaces := by
  have h := create_duplicate_fails "test" ⟨false, [], 0⟩ ⟨true, [], 0⟩
    ⟨none, none, none, none, none, none, none, none, none, none, none⟩
    ⟨none, none, none, none, none, none, none, none, none, none, none⟩
    rfl (by simp) rfl rfl rfl rfl rfl rfl rfl rfl
  exact ⟨h.1, h.2.1, h.2.2.2.1⟩

/-- C10: when the `unshare` step fails, `create` returns the unshare
error but does not remove the namespace file created earlier (no
removal is attempted — only a bind-mount failure triggers cleanup), no
kernel namespace is created, and a subsequent `create(name)` then
fails with the already-exists error even though no namespace was ever
bound to the file. -/
theorem create_unshare_failure_leaves_file (name : String) (w w1 : NsWorld)
    (o o2 : CreateOutcomes) (e : NixError)
    (hprep : prepare_runtime_directory w o = (w1, .ok ()))
    (hmem : persistent_namespace_path name ∉ w1.files)
    (hcf : o.createFile = none) (hsn : o.saveNamespace = none)
    (hun : o.unshareNet = some e)
    (hmk2 : o2.mkdir = none) (hod2 : o2.openDir = none) (hlk2 : o2.lock = none)
    (hsp2 : o2.setPropagation = none) :
    (create name w o).2.2 =
      .error (.System "could not create a new network namespace" e) ∧
    NsEvent.attemptedRemoveFile ∉ (create name w o).2.1 ∧
    persistent_namespace_path name ∈ (create name w o).1.files ∧
    (create name w o).1.kernelNamespaces = w.kernelNamespaces ∧
    (create name (create name w o).1 o2).2.2 =
      .error (.Io ("could not create network namespace file "
        ++ persistent_namespace_path name) alreadyExistsError) := by
  have hrun : create name w o =
      ({ w1 with files := persistent_namespace_path name :: w1.files },
        [.createdFile],
        .error (.System "could not create a new network namespace" e)) := by
    simp [create, hprep, hmem, hcf, hsn, hun]
  have hk : w1.kernelNamespaces = w.kernelNamespaces := by
    have := (prepare_runtime_directory_preserves w o).2
    rw [hprep] at this
    exact this
  have hmem2 : persistent_namespace_path name ∈ (create name w o).1.files := by
    rw [hrun]
    exact List.mem_cons_self _ _
  have hsecond := create_file_exists name (create name w o).1 o2 hmem2 hmk2 hod2 hlk2 hsp2
  refine ⟨by rw [hrun], ?_, hmem2, by rw [hrun]; exact hk, hsecond.1⟩
  rw [hrun]
  simp

/-- C10 witness: a concrete run in which the unshare step fails leaves
the file behind, creates no namespace, and makes the next create fail
with the already-exists error. -/
theorem create_unshare_failure_leaves_file_witness :
    (create "test" ⟨true, [], 0⟩
        ⟨none, none, none, none, none, none, none, none,
          some (.sys (.code 1)), none, none⟩).2.2
      = .error (.System "could not create a new network namespace" (.sys (.code 1))) ∧
    persistent_namespace_path "test" ∈
      (create "test" ⟨true, [], 0⟩
        ⟨none, none, none, none, none, none, none, none,
          some (.sys (.code 1)), none, none⟩).1.files ∧
    (create "test" ⟨true, [], 0⟩
        ⟨none, none, none, none, none, none, none, none,
          some (.sys (.code 1)), none, none⟩).1.kernelNamespaces = 0 ∧
    (create "test"
        (create "test" ⟨true, [], 0⟩
          ⟨none, none, none, none, none, none, none, none,
            some (.sys (.code 1)), none, none⟩).1
        ⟨none, none, none, none, none, none, none, none, none, none, none⟩).2.2
      = .error (.Io ("could not create network namespace file "
          ++ persistent_namespace_path "test") alreadyExistsError) := by
  have h := create_unshare_failure_leaves_file "test" ⟨true, [], 0⟩ ⟨true, [], 0⟩
    ⟨none, none, none, none, none, none, none, none,
      some (.sys (.code 1)), none, none⟩
    ⟨none, none, none, none, none, none, none, none, none, none, none⟩
    (.sys (.code 1)) rfl (by simp) rfl rfl rfl rfl rfl rfl rfl
  exact ⟨h.1, h.2.2.1, h.2.2.2.1, h.2.2.2.2⟩

end Sparkler
